import Mathlib

/-!
Verification of the smart-study note application core.

The definitions below are a shallow embedding of the TypeScript source:
the data model mirrors `src/types.ts`, the note-store / migration logic
mirrors the `App` component, the quiz and chat logic mirror
`src/components/AIAnalysisPanel.tsx` and `src/components/Editor.tsx`,
the credential logic mirrors the `Auth` component, and the chat fallback
mirrors `queryNote` in `src/services/geminiService.ts`.

Effects are made explicit: `Date.now()` becomes a `now : Nat` argument,
`uuidv4()` becomes an explicit id (or an id supply `Nat → String` mapped
positionally when the source generates one id per array element), and
an awaited AI call becomes an `Except Unit _` argument describing whether
the call returned a value or threw.
-/

namespace SmartStudy

/-- Embedding of JavaScript `String.prototype.trim`: strip leading and
trailing whitespace.  Structurally recursive so the kernel can evaluate it. -/
def jsTrim (s : String) : String :=
  String.mk (((s.data.dropWhile Char.isWhitespace).reverse.dropWhile Char.isWhitespace).reverse)

/-- Embedding of the JavaScript truthiness test `!s.trim()`: the string is
empty or consists only of whitespace. -/
def isBlank (s : String) : Bool :=
  jsTrim s == ""

/- ------------------------------------------------------------------ -/
/- Data model, from src/types.ts                                      -/
/- ------------------------------------------------------------------ -/

/-- `QuizItem` from src/types.ts: one quiz question together with the
student answer and the optional grading result. -/
structure QuizItem where
  id : String
  question : String
  userAnswer : String
  isCorrect : Option Bool := none
  feedback : Option String := none
  deriving DecidableEq

/-- `AIAnalysis` from src/types.ts. -/
structure AIAnalysis where
  summary : List String
  questions : List QuizItem
  deriving DecidableEq

/-- Attachment kind (`'code' | 'image'`) from src/types.ts. -/
inductive AttachmentType
  | code
  | image
  deriving DecidableEq

/-- `ChatAttachment` from src/types.ts. -/
structure ChatAttachment where
  type : AttachmentType
  title : String
  content : String
  language : Option String := none
  deriving DecidableEq

/-- Chat role (`'user' | 'model'`) from src/types.ts. -/
inductive Role
  | user
  | model
  deriving DecidableEq

/-- `ChatMessage` from src/types.ts. -/
structure ChatMessage where
  id : String
  role : Role
  content : String
  attachment : Option ChatAttachment := none
  timestamp : Nat
  deriving DecidableEq

/-- `Note` from src/types.ts. -/
structure Note where
  id : String
  title : String
  content : String
  createdAt : Nat
  updatedAt : Nat
  analysis : Option AIAnalysis := none
  chatHistory : Option (List ChatMessage) := none
  deriving DecidableEq

/-- `User` from src/types.ts. -/
structure User where
  id : String
  username : String
  password : String
  deriving DecidableEq

/-- `AnalysisResponse` from src/types.ts: raw provider response before
processing into app state. -/
structure AnalysisResponse where
  summary : List String
  questions : List String
  deriving DecidableEq

/-- One entry of `EvaluationResponse.evaluations` from src/types.ts. -/
structure Evaluation where
  questionId : String
  isCorrect : Bool
  feedback : String
  deriving DecidableEq

/- ------------------------------------------------------------------ -/
/- Stored (possibly pre-migration) note shapes                        -/
/- ------------------------------------------------------------------ -/

/-- A question element as it may appear in a persisted blob: either a bare
legacy string or a structured `QuizItem` (the `App` load effect inspects
`typeof questions[0] === 'string'` to tell the two shapes apart). -/
inductive StoredQuestion
  | legacy (s : String)
  | item (q : QuizItem)
  deriving DecidableEq

/-- `analysis` as it may appear in a persisted blob. -/
structure StoredAnalysis where
  summary : List String
  questions : List StoredQuestion
  deriving DecidableEq

/-- A note as it may appear in a persisted blob: identical to `Note` except
that `analysis.questions` may still hold bare legacy strings. -/
structure StoredNote where
  id : String
  title : String
  content : String
  createdAt : Nat
  updatedAt : Nat
  analysis : Option StoredAnalysis := none
  chatHistory : Option (List ChatMessage) := none
  deriving DecidableEq

/-- Pure rendering of a per-element `uuidv4()` call inside `.map`: each
element at position `k + index` receives the id `fresh (k + index)` drawn
from the id supply. -/
def mapWithSupply (fresh : Nat → String) (f : String → α → β) : Nat → List α → List β
  | _, [] => []
  | i, x :: xs => f (fresh i) x :: mapWithSupply fresh f (i + 1) xs

/-- The element rewrite of the `App` migration:
`(q) => ({ id: uuidv4(), question: q, userAnswer: '' })`.
The source first casts the whole array to `string[]`; the arrays the app
persists are homogeneous, and the theorems below only concern those, so for
an already structured element we keep its question text. -/
def toFreshItem (id : String) (q : StoredQuestion) : StoredQuestion :=
  StoredQuestion.item
    { id := id
      question := match q with | .legacy s => s | .item it => it.question
      userAnswer := "" }

/-- The question-array migration from the `App` notes-load effect: if the
array is non-empty and its first element is a bare string, rewrite every
element into a fresh `QuizItem`; otherwise leave the array untouched. -/
def migrateQuestions (fresh : Nat → String) (qs : List StoredQuestion) : List StoredQuestion :=
  match qs with
  | StoredQuestion.legacy _ :: _ => mapWithSupply fresh toFreshItem 0 qs
  | _ => qs

/-- The per-note migration from the `App` notes-load effect
(`migratedNotes`): a note with no analysis is returned unchanged, otherwise
its questions are migrated. -/
def migrateNote (fresh : Nat → String) (n : StoredNote) : StoredNote :=
  match n.analysis with
  | none => n
  | some a => { n with analysis := some { a with questions := migrateQuestions fresh a.questions } }

/-- A stored note is in the migrated (structured) shape when it has no
analysis, or its question array is empty or starts with a structured item —
exactly the notes the load-effect migration passes through untouched. -/
def isMigratedShape (n : StoredNote) : Bool :=
  match n.analysis with
  | none => true
  | some a =>
    match a.questions with
    | StoredQuestion.legacy _ :: _ => false
    | _ => true

/- ------------------------------------------------------------------ -/
/- Editor mutations, from src/components/Editor.tsx                   -/
/- ------------------------------------------------------------------ -/

/-- `handleTitleChange`: `{ ...note, title: e.target.value, updatedAt: Date.now() }`. -/
def handleTitleChange (n : Note) (t : String) (now : Nat) : Note :=
  { n with title := t, updatedAt := now }

/-- `handleContentChange`: `{ ...note, content: e.target.value, updatedAt: Date.now() }`. -/
def handleContentChange (n : Note) (c : String) (now : Nat) : Note :=
  { n with content := c, updatedAt := now }

/- ------------------------------------------------------------------ -/
/- Quiz engine, from src/components/AIAnalysisPanel.tsx               -/
/- ------------------------------------------------------------------ -/

/-- Validation errors of the quiz operations. -/
inductive QuizError
  | EmptyContent
  | NothingToGrade
  deriving DecidableEq

/-- The element construction inside `handleAnalyze`:
`(q) => ({ id: uuidv4(), question: q, userAnswer: '' })`. -/
def toQuizItem (id question : String) : QuizItem :=
  { id := id, question := question, userAnswer := "" }

/-- `handleAnalyze` from AIAnalysisPanel: guard `!note.content.trim()`
(surfaced here as `EmptyContent`, raised before the provider is consulted),
then wholesale replacement of `analysis` from the provider response with
fresh `QuizItem`s and `updatedAt: Date.now()`. -/
def applyAnalysis (fresh : Nat → String) (now : Nat) (n : Note) (res : AnalysisResponse) :
    Except QuizError Note :=
  if isBlank n.content then .error .EmptyContent
  else
    .ok { n with
      analysis := some
        { summary := res.summary
          questions := mapWithSupply fresh toQuizItem 0 res.questions }
      updatedAt := now }

/-- The per-item update inside `handleAnswerChange`:
`q.id === questionId ? { ...q, userAnswer: answer, isCorrect: undefined, feedback: undefined } : q`. -/
def setAnswerItem (questionId answer : String) (q : QuizItem) : QuizItem :=
  if q.id == questionId then
    { q with userAnswer := answer, isCorrect := none, feedback := none }
  else q

/-- `handleAnswerChange` from AIAnalysisPanel: a note with no analysis is
left untouched (the handler returns without updating), otherwise every
question with the given id gets the new answer and is reset to ungraded. -/
def setAnswer (n : Note) (questionId answer : String) : Note :=
  match n.analysis with
  | none => n
  | some a =>
    { n with analysis := some { a with questions := a.questions.map (setAnswerItem questionId answer) } }

/-- The outgoing request `handleCheckAnswers` builds for
`evaluateQuizAnswers(referenceContent, itemsToGrade)`. -/
structure EvaluateRequest where
  referenceContent : String
  items : List QuizItem
  deriving DecidableEq

/-- The request-construction phase of `handleCheckAnswers`: `none` when the
handler returns silently (no analysis or no questions), an error when no
question has a non-blank answer, otherwise the evaluation request whose
reference text is `note.analysis.summary.join('\n')` and whose items are
the non-blank-answer questions. -/
def submitForGrading (n : Note) : Option (Except QuizError EvaluateRequest) :=
  match n.analysis with
  | none => none
  | some a =>
    if a.questions.isEmpty then none
    else
      let itemsToGrade := a.questions.filter (fun q => !(isBlank q.userAnswer))
      if itemsToGrade.isEmpty then some (.error .NothingToGrade)
      else some (.ok { referenceContent := String.intercalate "\n" a.summary, items := itemsToGrade })

/-- The per-item merge inside `handleCheckAnswers`: find the evaluation
whose `questionId` matches, and if found set `isCorrect` and `feedback`
together, otherwise return the item unchanged. -/
def evalItem (evals : List Evaluation) (q : QuizItem) : QuizItem :=
  match evals.find? (fun e => e.questionId == q.id) with
  | some e => { q with isCorrect := some e.isCorrect, feedback := some e.feedback }
  | none => q

/-- The question-array merge of `handleCheckAnswers`. -/
def applyEvaluation (qs : List QuizItem) (evals : List Evaluation) : List QuizItem :=
  qs.map (evalItem evals)

/-- The note update `handleCheckAnswers` commits after a successful
evaluation call (note: it does not touch `updatedAt`). -/
def applyEvaluationNote (n : Note) (evals : List Evaluation) : Note :=
  match n.analysis with
  | none => n
  | some a => { n with analysis := some { a with questions := applyEvaluation a.questions evals } }

/- ------------------------------------------------------------------ -/
/- Chat session, from AIAnalysisPanel.handleSendMessage and           -/
/- geminiService.queryNote                                            -/
/- ------------------------------------------------------------------ -/

/-- Validation error of the chat send path. -/
inductive ChatError
  | EmptyMessage
  deriving DecidableEq

/-- The chat payload `queryNote` resolves with. -/
structure ChatResponse where
  text : String
  attachment : Option ChatAttachment := none
  deriving DecidableEq

/-- The fixed fallback text `queryNote` returns when the provider call (or
response parsing) fails, from src/services/geminiService.ts. -/
def chatFallbackText : String :=
  "Oof! I tripped over a wire and couldn\x27t process that. Mind asking again? 😅"

/-- The fixed apology text the `catch` branch of `handleSendMessage`
appends as a model message. -/
def chatErrorText : String :=
  "Sorry, I encountered an error while analyzing your note. Please try again."

/-- `queryNote` from geminiService: the underlying provider interaction
either produces a response (`.ok`) or fails (`.error`, covering a thrown
request error, an empty response and a parse failure, all caught by the
same `catch`); on failure the fixed fallback text is returned instead of
propagating the error. -/
def queryNote (outcome : Except Unit ChatResponse) : ChatResponse :=
  match outcome with
  | .ok r => r
  | .error _ => { text := chatFallbackText }

/-- The `newUserMsg` object literal of `handleSendMessage`. -/
def userMsg (freshId text : String) (now : Nat) : ChatMessage :=
  { id := freshId, role := .user, content := text, timestamp := now }

/-- The `newAiMsg` object literal of `handleSendMessage` (the `errorMsg`
literal of its `catch` branch is the same shape with no attachment). -/
def modelMsg (freshId text : String) (attachment : Option ChatAttachment) (now : Nat) :
    ChatMessage :=
  { id := freshId, role := .model, content := text, attachment := attachment, timestamp := now }

/-- The optimistic first phase of `handleSendMessage`: guard
`!chatInput.trim() || !note.content` (surfaced here as `EmptyMessage`;
note the content check is on the raw string, not trimmed), then append a
`role: 'user'` message to `chatHistory`, initializing it from
`note.chatHistory || []`. -/
def appendUserMessage (freshId : String) (now : Nat) (n : Note) (text : String) :
    Except ChatError Note :=
  if isBlank text ∨ n.content = "" then .error .EmptyMessage
  else
    .ok { n with chatHistory := some ((n.chatHistory.getD []) ++ [userMsg freshId text now]) }

/-- `handleSendMessage` from AIAnalysisPanel: the optimistic user-message
append, then the awaited `queryNote` call — `aiCall` describes whether that
await returns a response or throws — and finally the append of either the
model reply or, in the `catch` branch, the fixed apology message.  The AI
outcome never surfaces as an error to the caller. -/
def sendMessage (freshUser freshModel : String) (now : Nat) (n : Note) (text : String)
    (aiCall : Except Unit ChatResponse) : Except ChatError Note :=
  match appendUserMessage freshUser now n text with
  | .error e => .error e
  | .ok n1 =>
    match aiCall with
    | .ok r =>
      .ok { n1 with chatHistory := some ((n1.chatHistory.getD []) ++
        [modelMsg freshModel r.text r.attachment now]) }
    | .error _ =>
      .ok { n1 with chatHistory := some ((n1.chatHistory.getD []) ++
        [modelMsg freshModel chatErrorText none now]) }

/- ------------------------------------------------------------------ -/
/- Credential store, from the Auth component                          -/
/- ------------------------------------------------------------------ -/

/-- Errors of the Auth submit handler. -/
inductive AuthError
  | EmptyFields
  | DuplicateUsername
  | InvalidCredentials
  deriving DecidableEq

/-- Outcome of a register attempt together with the credential store left
behind in `localStorage` (`smart-study-users`): on any error nothing is
written, so the store is the input store. -/
structure RegisterResult where
  outcome : Except AuthError User
  store : List User

/-- The register branch of `Auth.handleSubmit`: blank-field guard, then
`users.some(u => u.username === username)` (case-sensitive exact equality)
raises the duplicate error without writing; otherwise the new user is
appended and persisted. -/
def register (freshId : String) (users : List User) (username password : String) :
    RegisterResult :=
  if isBlank username ∨ isBlank password then ⟨.error .EmptyFields, users⟩
  else if users.any (fun u => u.username == username) then ⟨.error .DuplicateUsername, users⟩
  else
    let newUser : User := { id := freshId, username := username, password := password }
    ⟨.ok newUser, users ++ [newUser]⟩

/- ------------------------------------------------------------------ -/
/- Notes-load effect, from the App component                          -/
/- ------------------------------------------------------------------ -/

/-- The slice of App state the load effect writes: the note collection and
the selected-note marker. -/
structure AppState where
  notes : List StoredNote
  selectedNoteId : Option String
  deriving DecidableEq

/-- What `localStorage.getItem` + `JSON.parse` yield for the per-user notes
blob: absent, present but unparsable, or a parsed note list. -/
inductive LoadOutcome
  | absent
  | corrupt
  | parsed (notes : List StoredNote)

/-- The notes-load effect of `App`: a parsed blob is migrated and the first
note (if any) selected; a corrupt blob empties the collection in the `catch`
branch but leaves the selection untouched; an absent blob empties the
collection and clears the selection. -/
def loadNotes (fresh : Nat → Nat → String) (outcome : LoadOutcome) (s : AppState) : AppState :=
  match outcome with
  | .parsed ns =>
    let migrated := ns.mapIdx (fun i note => migrateNote (fresh i) note)
    { notes := migrated
      selectedNoteId := match migrated with | [] => none | m :: _ => some m.id }
  | .corrupt => { s with notes := [] }
  | .absent => { notes := [], selectedNoteId := none }

/- ------------------------------------------------------------------ -/
/- Concrete values used by the closed witness theorems                -/
/- ------------------------------------------------------------------ -/

/-- A concrete id supply for witnesses. -/
def demoFresh : Nat → String := fun i => toString i

/-- A stored note in the legacy shape (bare string questions). -/
def demoLegacyNote : StoredNote :=
  { id := "n1", title := "t", content := "c", createdAt := 1, updatedAt := 2
    analysis := some { summary := ["sum"], questions := [.legacy "Q1", .legacy "Q2"] } }

/-- A graded quiz item used by witnesses. -/
def demoGradedItem : QuizItem :=
  { id := "q1", question := "Q?", userAnswer := "old", isCorrect := some false, feedback := some "no" }

/-- An ungraded quiz item with a different id, used by witnesses. -/
def demoOtherItem : QuizItem :=
  { id := "q2", question := "R?", userAnswer := "B" }

/-- A concrete evaluation entry for `demoGradedItem`. -/
def demoEval : Evaluation :=
  { questionId := "q1", isCorrect := true, feedback := "good" }

/-- The analysis of `demoGradedNote`. -/
def demoGradedAnalysis : AIAnalysis :=
  { summary := ["s"], questions := [demoGradedItem] }

/-- A note holding one graded question, used by witnesses. -/
def demoGradedNote : Note :=
  { id := "n2", title := "t", content := "c", createdAt := 0, updatedAt := 5
    analysis := some demoGradedAnalysis }

/-- A concrete provider response for witnesses. -/
def demoRes : AnalysisResponse := { summary := ["p1"], questions := ["W?"] }

/-- A note whose content is whitespace only. -/
def demoBlankNote : Note :=
  { id := "n3", title := "", content := "  ", createdAt := 0, updatedAt := 0 }

/-- The analysis of `demoAnsweredNote`. -/
def demoAnsweredAnalysis : AIAnalysis :=
  { summary := ["point one", "point two"]
    questions := [{ id := "q1", question := "Q?", userAnswer := "ans" }] }

/-- A note with a two-point summary and one answered question. -/
def demoAnsweredNote : Note :=
  { id := "n4", title := "t", content := "orig content", createdAt := 0, updatedAt := 0
    analysis := some demoAnsweredAnalysis }

/-- The evaluation request `submitForGrading` builds for `demoAnsweredNote`. -/
def demoRequest : EvaluateRequest :=
  { referenceContent := "point one\npoint two"
    items := [{ id := "q1", question := "Q?", userAnswer := "ans" }] }

/-- The optimistic commit for message "hi" on `demoGradedNote`. -/
def demoChatNoteU : Note :=
  { demoGradedNote with chatHistory := some [userMsg "u1" "hi" 7] }

/-- The note after the failing AI call has appended its apology. -/
def demoChatNoteUM : Note :=
  { demoGradedNote with chatHistory := some [userMsg "u1" "hi" 7, modelMsg "m2" chatErrorText none 7] }

/-- A note whose content is a single space: blank but not empty. -/
def demoSpaceContentNote : Note :=
  { id := "n5", title := "", content := " ", createdAt := 0, updatedAt := 0 }

/-- A per-note id supply for the load effect. -/
def demoFresh2 : Nat → Nat → String := fun i j => toString i ++ "-" ++ toString j

/-- An app state with a note selected, used by the C10 witness. -/
def demoState : AppState :=
  { notes := [], selectedNoteId := some "n1" }

/- ------------------------------------------------------------------ -/
/- Helper lemmas                                                      -/
/- ------------------------------------------------------------------ -/

theorem mapWithSupply_length {α β : Type} (fresh : Nat → String) (f : String → α → β) :
    ∀ (k : Nat) (xs : List α), (mapWithSupply fresh f k xs).length = xs.length
  | _, [] => rfl
  | k, _ :: xs => by
    simp [mapWithSupply, mapWithSupply_length fresh f (k + 1) xs]

theorem mapWithSupply_get {α β : Type} (fresh : Nat → String) (f : String → α → β) :
    ∀ (k : Nat) (xs : List α) (i : Nat) (h : i < xs.length)
      (h2 : i < (mapWithSupply fresh f k xs).length),
      (mapWithSupply fresh f k xs).get ⟨i, h2⟩ = f (fresh (k + i)) (xs.get ⟨i, h⟩)
  | k, x :: xs, 0, _, _ => by simp [mapWithSupply]
  | k, x :: xs, i + 1, h, h2 => by
    have hx : i < xs.length := by
      simpa [Nat.succ_lt_succ_iff] using h
    have hx2 : i < (mapWithSupply fresh f (k + 1) xs).length := by
      rw [mapWithSupply_length]
      exact hx
    have := mapWithSupply_get fresh f (k + 1) xs i hx hx2
    simp only [mapWithSupply, List.get]
    rw [this]
    congr 2
    omega

theorem map_eq_self_of_fix {α : Type} (f : α → α) :
    ∀ (l : List α), (∀ x ∈ l, f x = x) → l.map f = l
  | [], _ => rfl
  | x :: xs, h => by
    simp only [List.map, List.cons.injEq]
    exact ⟨h x (List.mem_cons_self x xs),
      map_eq_self_of_fix f xs fun y hy => h y (List.mem_cons_of_mem x hy)⟩

theorem migrateNote_eq_of_analysis (fresh : Nat → String) (n : StoredNote) (a : StoredAnalysis)
    (hA : n.analysis = some a) :
    migrateNote fresh n =
      { n with analysis := some { a with questions := migrateQuestions fresh a.questions } } := by
  unfold migrateNote
  rw [hA]

/- ------------------------------------------------------------------ -/
/- Claim theorems                                                     -/
/- ------------------------------------------------------------------ -/

/-- Claim C1: for every loaded note whose `analysis.questions` is a
non-empty sequence of bare strings, the migration step rewrites every
element into a `QuizItem` whose id is the freshly generated one for its
position, whose question text is the original string at that position, and
whose `userAnswer` is the empty string; every note already in the migrated
(structured) shape is left unchanged, and the migration is idempotent. -/
theorem migration_legacy_rewrite_and_idempotent (fresh : Nat → String) :
    (∀ (n : StoredNote) (a : StoredAnalysis) (ss : List String),
        n.analysis = some a → a.questions = ss.map StoredQuestion.legacy → ss ≠ [] →
        migrateNote fresh n =
          { n with
            analysis := some { a with questions := mapWithSupply fresh toFreshItem 0 (ss.map StoredQuestion.legacy) } } ∧
        ∀ (i : Nat) (h : i < ss.length)
          (h2 : i < (mapWithSupply fresh toFreshItem 0 (ss.map StoredQuestion.legacy)).length),
          (mapWithSupply fresh toFreshItem 0 (ss.map StoredQuestion.legacy)).get ⟨i, h2⟩ =
            StoredQuestion.item { id := fresh i, question := ss.get ⟨i, h⟩, userAnswer := "" }) ∧
    (∀ n : StoredNote, isMigratedShape n = true → migrateNote fresh n = n) ∧
    (∀ n : StoredNote, migrateNote fresh (migrateNote fresh n) = migrateNote fresh n) := by
  refine ⟨?_, ?_, ?_⟩
  · rintro n a ss hA hQ hne
    have hmq : migrateQuestions fresh a.questions =
        mapWithSupply fresh toFreshItem 0 (ss.map StoredQuestion.legacy) := by
      rw [hQ]
      cases ss with
      | nil => exact absurd rfl hne
      | cons s rest => rfl
    refine ⟨by rw [migrateNote_eq_of_analysis fresh n a hA, hmq], ?_⟩
    intro i h h2
    have h3 : i < (ss.map StoredQuestion.legacy).length := by simpa using h
    rw [mapWithSupply_get fresh toFreshItem 0 (ss.map StoredQuestion.legacy) i h3 h2]
    rw [List.get_eq_getElem, List.getElem_map]
    simp [toFreshItem]
  · rintro ⟨nid, ntitle, ncontent, ncAt, nuAt, nanalysis, nhist⟩ hn
    cases nanalysis with
    | none => rfl
    | some a =>
      cases a with
      | mk asummary aquestions =>
        cases aquestions with
        | nil => rfl
        | cons q rest =>
          cases q with
          | legacy s => simp [isMigratedShape] at hn
          | item it => rfl
  · rintro ⟨nid, ntitle, ncontent, ncAt, nuAt, nanalysis, nhist⟩
    cases nanalysis with
    | none => rfl
    | some a =>
      cases a with
      | mk asummary aquestions =>
        cases aquestions with
        | nil => rfl
        | cons q rest =>
          cases q with
          | legacy s => rfl
          | item it => rfl

/-- Witness for C1: the migration rewrites a concrete two-question legacy
note and is idempotent on it. -/
theorem migration_c1_witness :
    migrateNote demoFresh demoLegacyNote =
      { demoLegacyNote with
        analysis := some { summary := ["sum"], questions := mapWithSupply demoFresh toFreshItem 0 (["Q1", "Q2"].map StoredQuestion.legacy) } } ∧
    migrateNote demoFresh (migrateNote demoFresh demoLegacyNote) =
      migrateNote demoFresh demoLegacyNote := by
  have h := migration_legacy_rewrite_and_idempotent demoFresh
  exact ⟨(h.1 demoLegacyNote { summary := ["sum"], questions := [.legacy "Q1", .legacy "Q2"] }
      ["Q1", "Q2"] rfl rfl (by decide)).1, h.2.2 demoLegacyNote⟩

/-- Claim C2: `applyEvaluation` leaves every question whose id does not
appear in the evaluation result completely unchanged; for a question
matched by the result it sets `isCorrect` and `feedback` together (never
only one of the two), leaving id, question and `userAnswer` unchanged;
the corresponding note update only replaces `analysis.questions`. -/
theorem applyEvaluation_frame (evals : List Evaluation) :
    (∀ (n : Note) (a : AIAnalysis), n.analysis = some a →
        applyEvaluationNote n evals =
          { n with analysis := some { a with questions := applyEvaluation a.questions evals } }) ∧
    (∀ qs : List QuizItem, applyEvaluation qs evals = qs.map (evalItem evals)) ∧
    (∀ q : QuizItem, (∀ e ∈ evals, e.questionId ≠ q.id) → evalItem evals q = q) ∧
    (∀ (q : QuizItem) (e : Evaluation),
        evals.find? (fun e2 => e2.questionId == q.id) = some e →
        evalItem evals q = { q with isCorrect := some e.isCorrect, feedback := some e.feedback }) ∧
    (∀ q : QuizItem, (evalItem evals q).id = q.id ∧ (evalItem evals q).question = q.question ∧
        (evalItem evals q).userAnswer = q.userAnswer) := by
  refine ⟨?_, fun _ => rfl, ?_, ?_, ?_⟩
  · intro n a hA
    unfold applyEvaluationNote
    rw [hA]
  · intro q h
    have hf : evals.find? (fun e2 => e2.questionId == q.id) = none :=
      List.find?_eq_none.mpr fun e he => by
        simp only [beq_iff_eq]
        exact h e he
    unfold evalItem
    rw [hf]
  · intro q e hf
    unfold evalItem
    rw [hf]
  · intro q
    unfold evalItem
    cases evals.find? (fun e2 => e2.questionId == q.id) <;> simp

/-- Witness for C2: a matched item gets both grading fields set, an
unmatched item is untouched. -/
theorem applyEvaluation_frame_witness :
    evalItem [demoEval] demoGradedItem =
      { demoGradedItem with isCorrect := some true, feedback := some "good" } ∧
    evalItem [demoEval] demoOtherItem = demoOtherItem := by
  have h := applyEvaluation_frame [demoEval]
  exact ⟨h.2.2.2.1 demoGradedItem demoEval (by decide), h.2.2.1 demoOtherItem (by decide)⟩

/-- Claim C3: `setAnswer` sets the matched question's `userAnswer` to the
given text and leaves `isCorrect` and `feedback` both absent afterwards,
regardless of prior grading state and of whether the text changed;
questions with a different id are untouched; when no question carries the
id (or the note has no analysis) the resulting note is structurally
identical to the input. -/
theorem setAnswer_clears_grading (questionId answer : String) :
    (∀ q : QuizItem, q.id = questionId →
        setAnswerItem questionId answer q =
          { q with userAnswer := answer, isCorrect := none, feedback := none }) ∧
    (∀ q : QuizItem, q.id ≠ questionId → setAnswerItem questionId answer q = q) ∧
    (∀ (n : Note) (a : AIAnalysis), n.analysis = some a →
        setAnswer n questionId answer =
          { n with analysis := some { a with questions := a.questions.map (setAnswerItem questionId answer) } }) ∧
    (∀ (n : Note) (a : AIAnalysis), n.analysis = some a →
        (∀ q ∈ a.questions, q.id ≠ questionId) →
        setAnswer n questionId answer = n) ∧
    (∀ n : Note, n.analysis = none → setAnswer n questionId answer = n) := by
  have hnote : ∀ (n : Note) (a : AIAnalysis), n.analysis = some a →
      setAnswer n questionId answer =
        { n with analysis := some { a with questions := a.questions.map (setAnswerItem questionId answer) } } := by
    intro n a hA
    unfold setAnswer
    rw [hA]
  refine ⟨?_, ?_, hnote, ?_, ?_⟩
  · intro q h
    unfold setAnswerItem
    simp [h]
  · intro q h
    unfold setAnswerItem
    simp [h]
  · intro n a hA hq
    rw [hnote n a hA]
    have hmap : a.questions.map (setAnswerItem questionId answer) = a.questions :=
      map_eq_self_of_fix _ _ fun q hqmem => by
        unfold setAnswerItem
        simp [hq q hqmem]
    rw [hmap]
    have heta : ({ a with questions := a.questions } : AIAnalysis) = a := rfl
    rw [heta, ← hA]
  · intro n h
    unfold setAnswer
    rw [h]

/-- Witness for C3: editing the answer of a concrete graded item clears the
grading, and `setAnswer` with an id no question carries returns the note
unchanged. -/
theorem setAnswer_clears_grading_witness :
    setAnswerItem "q1" "new" demoGradedItem =
      { demoGradedItem with userAnswer := "new", isCorrect := none, feedback := none } ∧
    setAnswer demoGradedNote "zzz" "x" = demoGradedNote := by
  have h := setAnswer_clears_grading "q1" "new"
  have h2 := setAnswer_clears_grading "zzz" "x"
  exact ⟨h.1 demoGradedItem (by decide),
    h2.2.2.2.1 demoGradedNote demoGradedAnalysis rfl (by decide)⟩

/-- Claim C4: `applyAnalysis` fails with `EmptyContent` on blank content,
with a result that does not depend on the provider response (the provider
is never consulted); otherwise it replaces `summary` and `questions`
wholesale — the resulting questions are exactly the fresh, ungraded,
empty-answer items built from the new response — and sets `updatedAt` to
the current time. -/
theorem applyAnalysis_replaces_wholesale (fresh : Nat → String) (now : Nat)
    (n : Note) (res : AnalysisResponse) :
    (isBlank n.content = true →
        applyAnalysis fresh now n res = .error .EmptyContent ∧
        ∀ res2, applyAnalysis fresh now n res2 = applyAnalysis fresh now n res) ∧
    (isBlank n.content = false →
        applyAnalysis fresh now n res =
          .ok { n with
                analysis := some { summary := res.summary, questions := mapWithSupply fresh toQuizItem 0 res.questions }
                updatedAt := now } ∧
        (mapWithSupply fresh toQuizItem 0 res.questions).length = res.questions.length ∧
        ∀ (i : Nat) (h : i < res.questions.length)
          (h2 : i < (mapWithSupply fresh toQuizItem 0 res.questions).length),
          (mapWithSupply fresh toQuizItem 0 res.questions).get ⟨i, h2⟩ =
            { id := fresh i, question := res.questions.get ⟨i, h⟩, userAnswer := ""
              isCorrect := none, feedback := none }) := by
  constructor
  · intro hb
    refine ⟨by simp [applyAnalysis, hb], fun res2 => by simp [applyAnalysis, hb]⟩
  · intro hb
    refine ⟨by simp [applyAnalysis, hb], mapWithSupply_length fresh toQuizItem 0 res.questions, ?_⟩
    intro i h h2
    rw [mapWithSupply_get fresh toQuizItem 0 res.questions i h h2]
    simp [toQuizItem]

/-- Witness for C4: blank content fails with `EmptyContent`; non-blank
content gets the wholesale replacement with `updatedAt` bumped. -/
theorem applyAnalysis_replaces_wholesale_witness :
    applyAnalysis demoFresh 10 demoBlankNote demoRes = .error .EmptyContent ∧
    applyAnalysis demoFresh 10 demoGradedNote demoRes =
      .ok { demoGradedNote with
            analysis := some { summary := ["p1"], questions := mapWithSupply demoFresh toQuizItem 0 ["W?"] }
            updatedAt := 10 } := by
  have h1 := (applyAnalysis_replaces_wholesale demoFresh 10 demoBlankNote demoRes).1 (by decide)
  have h2 := (applyAnalysis_replaces_wholesale demoFresh 10 demoGradedNote demoRes).2 (by decide)
  exact ⟨h1.1, h2.1⟩

/-- Counterexample to C5 as stated: editing an answer really mutates the
note, yet `handleAnswerChange` never reads the clock, so the resulting
`updatedAt` still holds its old value (5 here) rather than the current
time of the edit. -/
theorem answerChange_keeps_old_updatedAt :
    setAnswer demoGradedNote "q1" "new" ≠ demoGradedNote ∧
    (setAnswer demoGradedNote "q1" "new").updatedAt = demoGradedNote.updatedAt ∧
    demoGradedNote.updatedAt = 5 := by
  refine ⟨by decide, rfl, rfl⟩

/-- Claim C5 (amended): title edits, content edits and a successful
`applyAnalysis` set `updatedAt` to the current time, while an answer
change (like a chat-message append) leaves `updatedAt` unchanged. -/
theorem updatedAt_policy :
    (∀ (n : Note) (t : String) (now : Nat), (handleTitleChange n t now).updatedAt = now) ∧
    (∀ (n : Note) (c : String) (now : Nat), (handleContentChange n c now).updatedAt = now) ∧
    (∀ (fresh : Nat → String) (now : Nat) (n : Note) (res : AnalysisResponse) (n2 : Note),
        applyAnalysis fresh now n res = .ok n2 → n2.updatedAt = now) ∧
    (∀ (n : Note) (questionId answer : String),
        (setAnswer n questionId answer).updatedAt = n.updatedAt) := by
  refine ⟨fun _ _ _ => rfl, fun _ _ _ => rfl, ?_, ?_⟩
  · intro fresh now n res n2 h
    unfold applyAnalysis at h
    split at h
    · exact absurd h (by simp)
    · simp only [Except.ok.injEq] at h
      subst h
      rfl
  · intro n questionId answer
    unfold setAnswer
    cases hA : n.analysis with
    | none => rfl
    | some a => rfl

/-- Witness for C5 (amended): the four clauses at concrete inputs. -/
theorem updatedAt_policy_witness :
    (handleTitleChange demoGradedNote "T" 10).updatedAt = 10 ∧
    (handleContentChange demoGradedNote "c2" 11).updatedAt = 11 ∧
    ({ demoGradedNote with
       analysis := some { summary := ["p1"], questions := mapWithSupply demoFresh toQuizItem 0 ["W?"] }
       updatedAt := 10 } : Note).updatedAt = 10 ∧
    (setAnswer demoGradedNote "q1" "new").updatedAt = demoGradedNote.updatedAt := by
  have h := updatedAt_policy
  exact ⟨h.1 demoGradedNote "T" 10, h.2.1 demoGradedNote "c2" 11,
    h.2.2.1 demoFresh 10 demoGradedNote demoRes _ rfl,
    h.2.2.2 demoGradedNote "q1" "new"⟩

/-- Claim C6: the reference text `handleCheckAnswers` passes to the
evaluation call is the analysis summary joined into one string, and it does
not depend on the note's original content. -/
theorem grading_reference_is_summary (n : Note) (a : AIAnalysis) (hA : n.analysis = some a) :
    (∀ req : EvaluateRequest, submitForGrading n = some (.ok req) →
        req.referenceContent = String.intercalate "\n" a.summary) ∧
    (∀ c : String, submitForGrading { n with content := c } = submitForGrading n) := by
  have hsub : submitForGrading n =
      (if a.questions.isEmpty then none
       else if (a.questions.filter (fun q => !isBlank q.userAnswer)).isEmpty then
         some (.error .NothingToGrade)
       else some (.ok { referenceContent := String.intercalate "\n" a.summary
                        items := a.questions.filter (fun q => !isBlank q.userAnswer) })) := by
    unfold submitForGrading
    rw [hA]
  constructor
  · intro req h
    rw [hsub] at h
    split at h
    · exact absurd h (by simp)
    · split at h
      · exact absurd h (by simp)
      · simp only [Option.some.injEq, Except.ok.injEq] at h
        rw [← h]
  · intro c
    exact rfl

/-- Witness for C6: the concrete request's reference text is the summary
join, and replacing the note content does not change the request. -/
theorem grading_reference_is_summary_witness :
    demoRequest.referenceContent = String.intercalate "\n" ["point one", "point two"] ∧
    submitForGrading { demoAnsweredNote with content := "other" } = submitForGrading demoAnsweredNote := by
  have h := grading_reference_is_summary demoAnsweredNote demoAnsweredAnalysis rfl
  exact ⟨h.1 demoRequest rfl, h.2 "other"⟩

/-- Claim C7: with a non-blank message and non-empty content (so the user
message is appended), a failing AI chat query yields a transcript exactly
two messages longer — the user message, then a synthetic model message
carrying a fixed apology text — and the failure never surfaces as an error
to the caller.  Both failure routes are covered: the provider call inside
`queryNote` failing (fallback text) and the awaited query itself throwing
(the `catch`-branch text). -/
theorem chat_failure_appends_two (freshUser freshModel : String) (now : Nat)
    (n : Note) (text : String) (h1 : isBlank text = false) (h2 : n.content ≠ "") :
    (sendMessage freshUser freshModel now n text (.ok (queryNote (.error ()))) =
       .ok { n with chatHistory := some ((n.chatHistory.getD []) ++ [userMsg freshUser text now, modelMsg freshModel chatFallbackText none now]) }) ∧
    (sendMessage freshUser freshModel now n text (.error ()) =
       .ok { n with chatHistory := some ((n.chatHistory.getD []) ++ [userMsg freshUser text now, modelMsg freshModel chatErrorText none now]) }) ∧
    (∀ m1 m2 : ChatMessage,
        ((n.chatHistory.getD []) ++ [m1, m2]).length = (n.chatHistory.getD []).length + 2) := by
  refine ⟨?_, ?_, fun m1 m2 => by simp⟩
  · simp [sendMessage, appendUserMessage, queryNote, h1, h2, List.append_assoc]
  · simp [sendMessage, appendUserMessage, h1, h2, List.append_assoc]

/-- Witness for C7: both failing routes on a concrete note with empty
prior history. -/
theorem chat_failure_appends_two_witness :
    sendMessage "u1" "m2" 9 demoGradedNote "hello" (.ok (queryNote (.error ()))) =
      .ok { demoGradedNote with chatHistory := some [userMsg "u1" "hello" 9, modelMsg "m2" chatFallbackText none 9] } ∧
    sendMessage "u1" "m2" 9 demoGradedNote "hello" (.error ()) =
      .ok { demoGradedNote with chatHistory := some [userMsg "u1" "hello" 9, modelMsg "m2" chatErrorText none 9] } := by
  have h := chat_failure_appends_two "u1" "m2" 9 demoGradedNote "hello" (by decide) (by decide)
  exact ⟨h.1, h.2.1⟩

/-- Claim C8 (amended): the optimistic append fails with `EmptyMessage`
(committing nothing) when the message text is blank or the note's content
is the empty string — the content check is on the raw, untrimmed string —
and otherwise immediately appends a `role = user` message carrying the
given text, initializing `chatHistory` when absent; every successful send
extends exactly this optimistically committed history, whatever the AI
call does afterwards. -/
theorem appendUserMessage_spec (freshId : String) (now : Nat) (n : Note) (text : String) :
    ((isBlank text = true ∨ n.content = "") →
        appendUserMessage freshId now n text = .error .EmptyMessage) ∧
    (isBlank text = false → n.content ≠ "" →
        appendUserMessage freshId now n text =
          .ok { n with chatHistory := some ((n.chatHistory.getD []) ++ [userMsg freshId text now]) }) ∧
    (∀ (freshModel : String) (aiCall : Except Unit ChatResponse) (n2 : Note),
        sendMessage freshId freshModel now n text aiCall = .ok n2 →
        (n2.chatHistory.getD []).take ((n.chatHistory.getD []).length + 1) =
          (n.chatHistory.getD []) ++ [userMsg freshId text now]) := by
  refine ⟨?_, ?_, ?_⟩
  · intro h
    unfold appendUserMessage
    rcases h with h | h
    · simp [h]
    · simp [h]
  · intro hb hc
    unfold appendUserMessage
    simp [hb, hc]
  · intro freshModel aiCall n2 hsend
    by_cases hg : isBlank text = true ∨ n.content = ""
    · have hfail : sendMessage freshId freshModel now n text aiCall = .error .EmptyMessage := by
        unfold sendMessage appendUserMessage
        rcases hg with h | h
        · simp [h]
        · simp [h]
      rw [hfail] at hsend
      exact absurd hsend (by simp)
    · push_neg at hg
      obtain ⟨hb, hc⟩ := hg
      have hb2 : isBlank text = false := by
        cases hx : isBlank text
        · rfl
        · exact absurd hx hb
      have hlen : ((n.chatHistory.getD []) ++ [userMsg freshId text now]).length =
          (n.chatHistory.getD []).length + 1 := by simp
      cases aiCall with
      | ok r =>
        have hred : sendMessage freshId freshModel now n text (.ok r) =
            .ok { n with chatHistory := some (((n.chatHistory.getD []) ++ [userMsg freshId text now]) ++ [modelMsg freshModel r.text r.attachment now]) } := by
          unfold sendMessage appendUserMessage
          simp [hb2, hc]
        rw [hred] at hsend
        simp only [Except.ok.injEq] at hsend
        subst hsend
        exact List.take_left' hlen
      | error e =>
        have hred : sendMessage freshId freshModel now n text (.error e) =
            .ok { n with chatHistory := some (((n.chatHistory.getD []) ++ [userMsg freshId text now]) ++ [modelMsg freshModel chatErrorText none now]) } := by
          unfold sendMessage appendUserMessage
          simp [hb2, hc]
        rw [hred] at hsend
        simp only [Except.ok.injEq] at hsend
        subst hsend
        exact List.take_left' hlen

/-- Witness for C8 (amended): blank text is rejected; a non-blank text on a
note with non-empty content is appended immediately; the committed history
survives a failing AI call. -/
theorem appendUserMessage_spec_witness :
    appendUserMessage "u1" 7 demoGradedNote "   " = .error .EmptyMessage ∧
    appendUserMessage "u1" 7 demoGradedNote "hi" = .ok demoChatNoteU ∧
    (demoChatNoteUM.chatHistory.getD []).take 1 = [userMsg "u1" "hi" 7] := by
  have h1 := appendUserMessage_spec "u1" 7 demoGradedNote "   "
  have h2 := appendUserMessage_spec "u1" 7 demoGradedNote "hi"
  exact ⟨h1.1 (Or.inl (by decide)), h2.2.1 (by decide) (by decide),
    h2.2.2 "m2" (.error ()) demoChatNoteUM rfl⟩

/-- Counterexample to C8 as stated: this note's content is blank (a single
space) yet non-empty, so a non-blank message is appended successfully
instead of failing with `EmptyMessage`. -/
theorem blank_content_message_accepted :
    isBlank demoSpaceContentNote.content = true ∧
    appendUserMessage "u1" 7 demoSpaceContentNote "hi" =
      .ok { demoSpaceContentNote with chatHistory := some [userMsg "u1" "hi" 7] } := by
  exact ⟨by decide, rfl⟩

/-- Claim C9: registering a username already present in the credential
store (exact, case-sensitive match) fails with `DuplicateUsername` and
writes nothing: after a first successful registration of `u`, a second
register of `u` with a different password fails, the store is unchanged,
and it still holds exactly one record for `u` carrying the first password. -/
theorem register_duplicate_rejected (id1 id2 : String) (s0 : List User) (u p1 p2 : String)
    (hu : ∀ v ∈ s0, v.username ≠ u)
    (hub : isBlank u = false) (hp1 : isBlank p1 = false) (hp2 : isBlank p2 = false) :
    (register id1 s0 u p1).outcome = .ok { id := id1, username := u, password := p1 } ∧
    (register id1 s0 u p1).store = s0 ++ [{ id := id1, username := u, password := p1 }] ∧
    (register id2 (register id1 s0 u p1).store u p2).outcome = .error .DuplicateUsername ∧
    (register id2 (register id1 s0 u p1).store u p2).store = (register id1 s0 u p1).store ∧
    (register id1 s0 u p1).store.filter (fun v => v.username == u) =
      [{ id := id1, username := u, password := p1 }] := by
  have hany : s0.any (fun v => v.username == u) = false := by
    rw [List.any_eq_false]
    intro v hv
    simp only [beq_iff_eq]
    exact hu v hv
  have h1 : register id1 s0 u p1 =
      ⟨.ok { id := id1, username := u, password := p1 },
       s0 ++ [{ id := id1, username := u, password := p1 }]⟩ := by
    unfold register
    simp [hub, hp1, hany]
  have hany2 : (s0 ++ [({ id := id1, username := u, password := p1 } : User)]).any
      (fun v => v.username == u) = true := by
    rw [List.any_eq_true]
    exact ⟨{ id := id1, username := u, password := p1 }, by simp, by simp⟩
  have h2 : register id2 (s0 ++ [({ id := id1, username := u, password := p1 } : User)]) u p2 =
      ⟨.error .DuplicateUsername, s0 ++ [{ id := id1, username := u, password := p1 }]⟩ := by
    unfold register
    simp [hub, hp2, hany2]
  have hfil : (s0 ++ [({ id := id1, username := u, password := p1 } : User)]).filter
      (fun v => v.username == u) = [{ id := id1, username := u, password := p1 }] := by
    rw [List.filter_append]
    have hnil : s0.filter (fun v => v.username == u) = [] := by
      rw [List.filter_eq_nil_iff]
      intro v hv
      simp only [beq_iff_eq]
      exact hu v hv
    rw [hnil]
    simp
  rw [h1]
  exact ⟨rfl, rfl, by rw [h2], by rw [h2], hfil⟩

/-- Witness for C9: the alice scenario from the spec, starting from an
empty store. -/
theorem register_duplicate_rejected_witness :
    (register "u1" [] "alice" "pw1").outcome =
      .ok { id := "u1", username := "alice", password := "pw1" } ∧
    (register "u2" (register "u1" [] "alice" "pw1").store "alice" "pw2").outcome =
      .error .DuplicateUsername ∧
    (register "u1" [] "alice" "pw1").store.filter (fun v => v.username == "alice") =
      [{ id := "u1", username := "alice", password := "pw1" }] := by
  have h := register_duplicate_rejected "u1" "u2" [] "alice" "pw1" "pw2"
    (by intro v hv; cases hv) (by decide) (by decide) (by decide)
  exact ⟨h.1, h.2.2.1, h.2.2.2.2⟩

/-- Claim C10: at the load boundary, a corrupt persisted blob empties the
collection but leaves the selected-note marker at its previous value,
while an absent blob empties the collection and clears the selection; when
a selection was present the two outcomes are observably different. -/
theorem load_corrupt_vs_absent (fresh : Nat → Nat → String) (s : AppState) :
    (loadNotes fresh .corrupt s).notes = [] ∧
    (loadNotes fresh .corrupt s).selectedNoteId = s.selectedNoteId ∧
    (loadNotes fresh .absent s).notes = [] ∧
    (loadNotes fresh .absent s).selectedNoteId = none ∧
    (∀ x : String, s.selectedNoteId = some x →
        loadNotes fresh .corrupt s ≠ loadNotes fresh .absent s) := by
  refine ⟨rfl, rfl, rfl, rfl, ?_⟩
  intro x hx heq
  have h2 : s.selectedNoteId = (none : Option String) := by
    have h3 := congrArg AppState.selectedNoteId heq
    simpa [loadNotes] using h3
  rw [hx] at h2
  cases h2

/-- Witness for C10: the two empty-result load paths differ on a concrete
state with a selection present. -/
theorem load_corrupt_vs_absent_witness :
    (loadNotes demoFresh2 .corrupt demoState).selectedNoteId = some "n1" ∧
    (loadNotes demoFresh2 .absent demoState).selectedNoteId = none ∧
    loadNotes demoFresh2 .corrupt demoState ≠ loadNotes demoFresh2 .absent demoState := by
  have h := load_corrupt_vs_absent demoFresh2 demoState
  exact ⟨h.2.1, h.2.2.2.1, h.2.2.2.2 "n1" rfl⟩

end SmartStudy
